import Mathlib

/-
Shallow embedding of the per-eye frame-processing worker of
EyeTrackApp/eye_processor.py (class EyeProcessor).

Frames are abstracted to their pixel dimensions plus a lineage tag;
pixel contents are irrelevant to every property proved here.  Numpy
slicing clamps indices (it does not raise on out-of-bounds ranges),
cv2.warpAffine produces an output of exactly the requested canvas
size and fails on an empty source, np.concatenate along axis 1
requires equal row counts, and cv2.cvtColor fails on an empty input;
the frame-level definitions below reproduce those semantics.
External collaborators (detector engines, the intensity blink test,
cal_osc calibration, the BLINK classifier) are supplied per tick as
inputs of the step function, since only their results flow through
the code under verification.
-/

/-- A frame, abstracted to its dimensions and a lineage tag standing for
its pixel contents. -/
structure Frame where
  rows : Nat
  cols : Nat
  tag : Nat
  deriving DecidableEq

/-- The configuration fields of EyeTrackCameraConfig read by the worker. -/
structure Config where
  roi_window_x : Int
  roi_window_y : Int
  roi_window_w : Int
  roi_window_h : Int
  rotation_angle : Int
  focal_length : Int
  deriving DecidableEq

/-- The settings fields of EyeTrackSettingsConfig read by run(). -/
structure Settings where
  gui_HSF : Bool
  gui_HSFP : Nat
  gui_HSRAC : Bool
  gui_HSRACP : Nat
  gui_RANSAC3D : Bool
  gui_RANSAC3DP : Nat
  gui_BLOB : Bool
  gui_BLOBP : Nat
  gui_skip_autoradius : Bool
  gui_HSF_radius : Nat
  deriving DecidableEq

/-- InformationOrigin enum from eye_processor.py lines 61-66. -/
inductive InformationOrigin where
  | RANSAC
  | BLOB
  | FAILURE
  | HSF
  | HSRAC
  deriving DecidableEq

/-- EyeInformation dataclass from eye_processor.py lines 69-75.
Coordinates are abstracted to integers; they are produced opaquely by
the external cal_osc collaborator. -/
structure EyeInformation where
  info_type : InformationOrigin
  x : Int
  y : Int
  pupil_dialation : Nat
  blink : Bool
  deriving DecidableEq

/-- The bound detector methods that can occupy a scheduling slot. -/
inductive Algo where
  | HSFM
  | HSRACM
  | RANSAC3DM
  | BLOBM
  deriving DecidableEq

/-- The four priority slots firstalgo..fourthalgo set up in run(). -/
structure SlotTable where
  firstalgo : Option Algo
  secondalgo : Option Algo
  thirdalgo : Option Algo
  fourthalgo : Option Algo
  deriving DecidableEq

/-- External_Run_HSF handle: constructed in run() from the two settings
values passed at eye_processor.py line 334. -/
structure HsfEngine where
  skip_autoradius : Bool
  radius : Nat
  deriving DecidableEq

/-- External_Run_HSRACS handle, constructed at eye_processor.py line 342. -/
structure HsracEngine where
  skip_autoradius : Bool
  radius : Nat
  deriving DecidableEq

/-- pye3d CameraModel: records the focal length and resolution it was
constructed with (eye_processor.py lines 411-414). -/
structure CameraModel where
  focal_length : Int
  resolution : Int × Int
  deriving DecidableEq

/-- pye3d Detector3D, tied to the camera model it was built from. -/
structure Detector3D where
  camera : CameraModel
  deriving DecidableEq

/-- The mutable per-worker state of EyeProcessor that the verified code
reads or writes. -/
structure WorkerState where
  slots : SlotTable
  er_hsf : Option HsfEngine
  er_hsrac : Option HsracEngine
  camera_model : Option CameraModel
  detector_3d : Option Detector3D
  failed : Nat
  previous_image : Option Frame
  current_image : Option Frame
  current_image_gray : Option Frame
  current_image_gray_clean : Option Frame
  previous_rotation : Int
  eyeoffx : Bool
  deriving DecidableEq

/-- Initial state from EyeProcessor.__init__ (slots do not exist until
run() assigns them; they start empty here). -/
def initState (rotation : Int) : WorkerState :=
  { slots := ⟨none, none, none, none⟩
    er_hsf := none
    er_hsrac := none
    camera_model := none
    detector_3d := none
    failed := 0
    previous_image := none
    current_image := none
    current_image_gray := none
    current_image_gray_clean := none
    previous_rotation := rotation
    eyeoffx := true }

/-- Length of the python slice [a:b] of an axis of size len: negative
indices count from the end, all indices clamp to [0, len]. -/
def sliceLen (a b : Int) (len : Nat) : Nat :=
  let norm : Int → Int := fun i => if i < 0 then max 0 ((len : Int) + i) else min i (len : Int)
  (norm b - norm a).toNat

/-- Crop step of capture_crop_rotate_image (eye_processor.py lines
204-211): numpy slice [y : y+h, x : x+w], which clamps out-of-range
bounds instead of failing. -/
def cropFrame (cfg : Config) (f : Frame) : Frame :=
  { rows := sliceLen cfg.roi_window_y (cfg.roi_window_y + cfg.roi_window_h) f.rows
    cols := sliceLen cfg.roi_window_x (cfg.roi_window_x + cfg.roi_window_w) f.cols
    tag := f.tag }

/-- cv2.warpAffine with dsize (cols, rows) equal to the source size
(eye_processor.py lines 229-235): the output canvas has exactly the
input dimensions, contents abstracted. -/
def warpAffineFrame (f : Frame) : Frame :=
  ⟨f.rows, f.cols, f.tag⟩

/-- cv2.cvtColor: dimensions and lineage are preserved. -/
def cvtColorFrame (f : Frame) : Frame :=
  ⟨f.rows, f.cols, f.tag⟩

/-- EyeProcessor.capture_crop_rotate_image (lines 199-238).  The crop
raises only when the current frame is missing, in which case the
previous accepted frame is substituted; the rotation block fails (the
function then returns a falsy value) when the frame to rotate is
missing or empty.  Returns the new current_image and the success flag
tested by run() at line 432. -/
def capture_crop_rotate_image (cfg : Config) (previous current : Option Frame) :
    Option Frame × Bool :=
  let cur1 : Option Frame :=
    match current with
    | some f => some (cropFrame cfg f)
    | none => previous
  match cur1 with
  | some f =>
    if 0 < f.rows ∧ 0 < f.cols then (some (warpAffineFrame f), true)
    else (some f, false)
  | none => (none, false)

/-- EyeProcessor.output_images_and_update (lines 183-198): convert both
frames to 3 channels and concatenate along axis 1, which requires both
frames to be nonempty with equal row counts; on success enqueue the
pair and update previous_image and previous_rotation, on any failure
print and drop the output, leaving the state unchanged. -/
def output_images_and_update (cfg : Config) (s : WorkerState) (threshold_image : Frame)
    (output_information : EyeInformation) : WorkerState × List (Frame × EyeInformation) :=
  match s.current_image_gray with
  | none => (s, [])
  | some g =>
    if 0 < g.rows ∧ 0 < g.cols ∧ 0 < threshold_image.rows ∧ 0 < threshold_image.cols ∧
        g.rows = threshold_image.rows then
      ({ s with previous_image := s.current_image, previous_rotation := cfg.rotation_angle },
        [(⟨g.rows, g.cols + threshold_image.cols, g.tag⟩, output_information)])
    else (s, [])

/-- Record built by HSFM (lines 272-275): both branches of the cx == 0
test construct the same record. -/
def HSFM_info (out : Int × Int) (eyeopen : Bool) (cx : Int) : EyeInformation :=
  if cx = 0 then ⟨InformationOrigin.HSF, out.1, out.2, 0, eyeopen⟩
  else ⟨InformationOrigin.HSF, out.1, out.2, 0, eyeopen⟩

/-- Record built by RANSAC3DM (lines 281-284): both branches of the
cx == 0 test construct the same record. -/
def RANSAC3DM_info (out : Int × Int) (eyeopen : Bool) (cx : Int) : EyeInformation :=
  if cx = 0 then ⟨InformationOrigin.RANSAC, out.1, out.2, 0, eyeopen⟩
  else ⟨InformationOrigin.RANSAC, out.1, out.2, 0, eyeopen⟩

/-- Record built by BLOBM (lines 290-293): both branches tag the record
with InformationOrigin.HSRAC, not InformationOrigin.BLOB. -/
def BLOBM_info (out : Int × Int) (eyeopen : Bool) (cx : Int) : EyeInformation :=
  if cx = 0 then ⟨InformationOrigin.HSRAC, out.1, out.2, 0, eyeopen⟩
  else ⟨InformationOrigin.HSRAC, out.1, out.2, 0, eyeopen⟩

/-- Record built by HSRACM (lines 260-263): when eyeoffx is truthy the
blink field is the float 0.0 (falsy), otherwise the intensity result. -/
def HSRACM_info (out : Int × Int) (eyeopen : Bool) (eyeoffx : Bool) : EyeInformation :=
  if eyeoffx then ⟨InformationOrigin.HSRAC, out.1, out.2, 0, false⟩
  else ⟨InformationOrigin.HSRAC, out.1, out.2, 0, eyeopen⟩

/-- Per-tick inputs: the cancellation flags observed this iteration, the
configuration snapshot, the incoming queue item, and the results the
external collaborators would return this tick. -/
structure TickEnv where
  cancelled : Bool
  cancelledDuringWait : Bool
  cfg : Config
  frame : Option Frame
  hsfOut : Int × Int × Frame
  hsracOut : Int × Int × Frame × Frame × Frame
  ransacOut : Int × Int × Frame
  blobOut : Int × Int × Frame
  intense : Int → Int → Option Frame → Bool
  cal : Int × Int → Int × Int
  blinkResult : Bool

/-- One bound-method invocation from the scheduler cascade: run the
detector, the intensity test and cal_osc, then emit through
output_images_and_update (eye_processor.py lines 244-293). -/
def methodStep (env : TickEnv) (s : WorkerState) :
    Algo → WorkerState × List (Frame × EyeInformation)
  | Algo.HSFM =>
    let r := env.hsfOut
    let eyeopen := env.intense r.1 r.2.1 s.current_image_gray
    let out := env.cal (r.1, r.2.1)
    output_images_and_update env.cfg s r.2.2 (HSFM_info out eyeopen r.1)
  | Algo.HSRACM =>
    let r := env.hsracOut
    let s1 := { s with current_image_gray := some r.2.2.2.1 }
    let eyeopen := env.intense r.1 r.2.1 (some r.2.2.2.2)
    let out := env.cal (r.1, r.2.1)
    output_images_and_update env.cfg s1 r.2.2.1 (HSRACM_info out eyeopen s1.eyeoffx)
  | Algo.RANSAC3DM =>
    let r := env.ransacOut
    let eyeopen := env.intense r.1 r.2.1 s.current_image_gray
    let out := env.cal (r.1, r.2.1)
    output_images_and_update env.cfg s r.2.2 (RANSAC3DM_info out eyeopen r.1)
  | Algo.BLOBM =>
    let r := env.blobOut
    let eyeopen := env.intense r.1 r.2.1 s.current_image_gray
    let out := env.cal (r.1, r.2.1)
    output_images_and_update env.cfg s r.2.2 (BLOBM_info out eyeopen r.1)

/-- EyeProcessor.ALGOSELECT (lines 297-317): four sequential checks over
the cascade counter self.failed; an invoked method never touches the
counter, so the invocations are recorded as a list. -/
def ALGOSELECT (slots : SlotTable) (failed : Nat) : Nat × List Algo :=
  let r1 :=
    if failed = 0 ∧ slots.firstalgo.isSome then (failed, slots.firstalgo.toList)
    else (failed + 1, ([] : List Algo))
  let r2 :=
    if r1.1 = 1 ∧ slots.secondalgo.isSome then (r1.1, slots.secondalgo.toList)
    else (r1.1 + 1, ([] : List Algo))
  let r3 :=
    if r2.1 = 2 ∧ slots.thirdalgo.isSome then (r2.1, slots.thirdalgo.toList)
    else (r2.1 + 1, ([] : List Algo))
  let r4 :=
    if r3.1 = 3 ∧ slots.fourthalgo.isSome then (r3.1, slots.fourthalgo.toList)
    else (0, ([] : List Algo))
  (r4.1, r1.2 ++ r2.2 ++ r3.2 ++ r4.2)

/-- Run the cascade invocations in order, threading the state and
collecting emitted outputs. -/
def runCalls (env : TickEnv) (s : WorkerState) :
    List Algo → WorkerState × List (Frame × EyeInformation)
  | [] => (s, [])
  | a :: rest =>
    let r1 := methodStep env s a
    let r2 := runCalls env r1.1 rest
    (r2.1, r1.2 ++ r2.2)

/-- Reconstruction of the pye3d camera model and detector when the ROI
resolution changed (eye_processor.py lines 404-417). -/
def resetModels (cfg : Config) (s : WorkerState) : WorkerState :=
  if s.camera_model = none ∨ s.detector_3d = none ∨
      s.camera_model.map CameraModel.resolution ≠
        some (cfg.roi_window_w, cfg.roi_window_h) then
    let cm : CameraModel := ⟨cfg.focal_length, (cfg.roi_window_w, cfg.roi_window_h)⟩
    { s with camera_model := some cm, detector_3d := some ⟨cm⟩ }
  else s

/-- Result of one iteration of the while loop in run(): either the
thread returns, or it proceeds to the next iteration with the new
state, the detector invocations made, and the outputs enqueued. -/
inductive StepResult where
  | exit : StepResult
  | next : WorkerState → List Algo → List (Frame × EyeInformation) → StepResult
  deriving DecidableEq

/-- One iteration of the while loop of EyeProcessor.run (lines 387-466):
cancellation check, invalid-ROI sleep with cancellation poll, pye3d
model reset, frame intake, preprocessing, grayscale derivation,
ALGOSELECT cascade and BLINKM. -/
def loopStep (env : TickEnv) (s : WorkerState) : StepResult :=
  if env.cancelled then StepResult.exit
  else if env.cfg.roi_window_w ≤ 0 ∨ env.cfg.roi_window_h ≤ 0 then
    (if env.cancelledDuringWait then StepResult.exit else StepResult.next s [] [])
  else
    let s1 := resetModels env.cfg s
    match env.frame with
    | none => StepResult.next s1 [] []
    | some fr =>
      let s2 := { s1 with current_image := some fr }
      let cr := capture_crop_rotate_image env.cfg s2.previous_image s2.current_image
      let s3 := { s2 with current_image := cr.1 }
      if cr.2 then
        let s4 := { s3 with
          current_image_gray := cr.1.map cvtColorFrame
          current_image_gray_clean := cr.1.map cvtColorFrame }
        let sel := ALGOSELECT s4.slots s4.failed
        let s5 := { s4 with failed := sel.1 }
        let r := runCalls env s5 sel.2
        let s6 := { r.1 with eyeoffx := env.blinkResult }
        StepResult.next s6 sel.2 r.2
      else StepResult.next s3 [] []

/-- Slot assignment through the algolist (run(), lines 328-348): a
five-entry list indexed by priority, written first by HSF then by
HSRAC when enabled. -/
def buildAlgolist (st : Settings) : List (Option Algo) :=
  let algolist : List (Option Algo) := [none, none, none, none, none]
  let algolist := if st.gui_HSF then algolist.set st.gui_HSFP (some Algo.HSFM) else algolist
  let algolist := if st.gui_HSRAC then algolist.set st.gui_HSRACP (some Algo.HSRACM) else algolist
  algolist

/-- RANSAC3D slot overwrite chain (run(), lines 359-366). -/
def applyRANSAC3D (st : Settings) (t : SlotTable) : SlotTable :=
  if st.gui_RANSAC3D ∧ st.gui_RANSAC3DP = 1 then { t with firstalgo := some Algo.RANSAC3DM }
  else if st.gui_RANSAC3D ∧ st.gui_RANSAC3DP = 2 then { t with secondalgo := some Algo.RANSAC3DM }
  else if st.gui_RANSAC3D ∧ st.gui_RANSAC3DP = 3 then { t with thirdalgo := some Algo.RANSAC3DM }
  else if st.gui_RANSAC3D ∧ st.gui_RANSAC3DP = 4 then { t with fourthalgo := some Algo.RANSAC3DM }
  else t

/-- BLOB slot overwrite chain (run(), lines 377-384). -/
def applyBLOB (st : Settings) (t : SlotTable) : SlotTable :=
  if st.gui_BLOB ∧ st.gui_BLOBP = 1 then { t with firstalgo := some Algo.BLOBM }
  else if st.gui_BLOB ∧ st.gui_BLOBP = 2 then { t with secondalgo := some Algo.BLOBM }
  else if st.gui_BLOB ∧ st.gui_BLOBP = 3 then { t with thirdalgo := some Algo.BLOBM }
  else if st.gui_BLOB ∧ st.gui_BLOBP = 4 then { t with fourthalgo := some Algo.BLOBM }
  else t

/-- Slot table computed by the setup phase of run() (lines 324-384):
algolist writes for HSF and HSRAC, unpacking into the four slots, then
the RANSAC3D and BLOB overwrite chains. -/
def buildSlots (st : Settings) : SlotTable :=
  let l := buildAlgolist st
  applyBLOB st (applyRANSAC3D st
    { firstalgo := l.getD 1 none
      secondalgo := l.getD 2 none
      thirdalgo := l.getD 3 none
      fourthalgo := l.getD 4 none })

/-- Setup phase of run() (lines 324-384): engine lifecycle for er_hsf
and er_hsrac driven by the enable flags, and the slot-table assignment.
The ROI configuration is not consulted here. -/
def runSetup (st : Settings) (s : WorkerState) : WorkerState :=
  let s1 :=
    if st.gui_HSF then
      (if s.er_hsf = none then
        { s with er_hsf := some ⟨st.gui_skip_autoradius, st.gui_HSF_radius⟩ }
      else s)
    else (if s.er_hsf ≠ none then { s with er_hsf := none } else s)
  let s2 :=
    if st.gui_HSRAC then
      (if s1.er_hsrac = none then
        { s1 with er_hsrac := some ⟨st.gui_skip_autoradius, st.gui_HSF_radius⟩ }
      else s1)
    else (if s1.er_hsrac ≠ none then { s1 with er_hsrac := none } else s1)
  { s2 with slots := buildSlots st }

/-- Specification-side description of one slot (spec section 3 and
section 8): the algorithm enabled at a given priority, collisions
resolved by the fixed overwrite order where later writers win
(edge-based, then hybrid, then 3D-model-based, then blob-based). -/
def specSlotAt (st : Settings) (p : Nat) : Option Algo :=
  if st.gui_BLOB ∧ st.gui_BLOBP = p then some Algo.BLOBM
  else if st.gui_RANSAC3D ∧ st.gui_RANSAC3DP = p then some Algo.RANSAC3DM
  else if st.gui_HSRAC ∧ st.gui_HSRACP = p then some Algo.HSRACM
  else if st.gui_HSF ∧ st.gui_HSFP = p then some Algo.HSFM
  else none

/-- Specification-side highest-priority occupied slot of a table. -/
def specHighestPriority (slots : SlotTable) : Option Algo :=
  match slots.firstalgo with
  | some a => some a
  | none =>
    match slots.secondalgo with
    | some a => some a
    | none =>
      match slots.thirdalgo with
      | some a => some a
      | none => slots.fourthalgo

/-- C1 counterexample: with only the fourth slot occupied (a reachable
configuration, starting from the initial counter 0), the tick that
invokes slot four leaves the cascade counter at 3, not 0, and the next
tick, starting from the reachable counter value 3, invokes no detector
at all even though a slot is occupied. -/
theorem algoselect_counter_not_reset :
    (ALGOSELECT ⟨none, none, none, some Algo.BLOBM⟩ 0).1 = 3 ∧
    (ALGOSELECT ⟨none, none, none, some Algo.BLOBM⟩ 0).2 = [Algo.BLOBM] ∧
    (ALGOSELECT ⟨none, none, none, some Algo.BLOBM⟩ 3).2 = [] ∧
    (ALGOSELECT ⟨none, none, none, some Algo.BLOBM⟩ 3).1 = 0 := by
  decide

/-- C1 amended: from any cascade-counter value reachable across ticks
(0 always; 3 exactly when slots one to three are empty and slot four is
occupied), one ALGOSELECT call invokes at most one detector; from
counter 0 it invokes exactly the highest-priority occupied slot (none
when all slots are empty) and the counter ends at 0 unless the invoked
slot was slot four, where it ends at 3; from counter 3 it invokes
nothing and resets the counter to 0.  The result is independent of
detector return values, which never reach the counter. -/
theorem algoselect_static_priority (slots : SlotTable) (f : Nat)
    (hreach : f = 0 ∨ (f = 3 ∧ slots.firstalgo = none ∧ slots.secondalgo = none ∧
      slots.thirdalgo = none ∧ slots.fourthalgo.isSome)) :
    (ALGOSELECT slots f).2.length ≤ 1 ∧
    (f = 0 → (ALGOSELECT slots f).2 = (specHighestPriority slots).toList) ∧
    (f = 3 → (ALGOSELECT slots f).2 = [] ∧ (ALGOSELECT slots f).1 = 0) ∧
    ((ALGOSELECT slots f).1 = 0 ∨
      ((ALGOSELECT slots f).1 = 3 ∧ slots.firstalgo = none ∧ slots.secondalgo = none ∧
        slots.thirdalgo = none ∧ slots.fourthalgo.isSome)) := by
  obtain ⟨s1, s2, s3, s4⟩ := slots
  rcases hreach with h0 | ⟨h3, e1, e2, e3, e4⟩
  · subst h0
    cases s1 <;> cases s2 <;> cases s3 <;> cases s4 <;>
      simp [ALGOSELECT, specHighestPriority]
  · subst h3
    simp only at e1 e2 e3 e4
    subst e1; subst e2; subst e3
    cases s4 <;> simp_all [ALGOSELECT]

/-- C1 witness: the amended scheduler theorem applied to the table with
only the first slot occupied, at the reachable counter value 0. -/
theorem algoselect_static_priority_witness :
    (ALGOSELECT ⟨some Algo.HSFM, none, none, none⟩ 0).2.length ≤ 1 ∧
    (0 = 0 → (ALGOSELECT ⟨some Algo.HSFM, none, none, none⟩ 0).2 =
      (specHighestPriority ⟨some Algo.HSFM, none, none, none⟩).toList) ∧
    (0 = 3 → (ALGOSELECT ⟨some Algo.HSFM, none, none, none⟩ 0).2 = [] ∧
      (ALGOSELECT ⟨some Algo.HSFM, none, none, none⟩ 0).1 = 0) ∧
    ((ALGOSELECT ⟨some Algo.HSFM, none, none, none⟩ 0).1 = 0 ∨
      ((ALGOSELECT ⟨some Algo.HSFM, none, none, none⟩ 0).1 = 3 ∧
        (⟨some Algo.HSFM, none, none, none⟩ : SlotTable).firstalgo = none ∧
        (⟨some Algo.HSFM, none, none, none⟩ : SlotTable).secondalgo = none ∧
        (⟨some Algo.HSFM, none, none, none⟩ : SlotTable).thirdalgo = none ∧
        (⟨some Algo.HSFM, none, none, none⟩ : SlotTable).fourthalgo.isSome)) :=
  algoselect_static_priority ⟨some Algo.HSFM, none, none, none⟩ 0 (Or.inl rfl)

set_option maxHeartbeats 3200000 in
/-- C2: for every combination of enable flags and priority ranks in the
range 1 to 4, the slot table built by the setup phase of run() places
each enabled algorithm at the slot indexed by its configured priority,
leaves slots with no enabled algorithm empty, and resolves shared
priorities by the fixed overwrite order edge-based, hybrid,
3D-model-based, blob-based, the later writer winning; the construction
is total, reporting no error. -/
theorem slot_table_matches_spec (st : Settings)
    (h1 : 1 ≤ st.gui_HSFP ∧ st.gui_HSFP ≤ 4)
    (h2 : 1 ≤ st.gui_HSRACP ∧ st.gui_HSRACP ≤ 4)
    (h3 : 1 ≤ st.gui_RANSAC3DP ∧ st.gui_RANSAC3DP ≤ 4)
    (h4 : 1 ≤ st.gui_BLOBP ∧ st.gui_BLOBP ≤ 4) :
    buildSlots st = ⟨specSlotAt st 1, specSlotAt st 2, specSlotAt st 3, specSlotAt st 4⟩ := by
  obtain ⟨hsf, hsfp, hsrac, hsracp, r3, r3p, bl, blp, sk, rad⟩ := st
  obtain ⟨h1a, h1b⟩ := h1
  obtain ⟨h2a, h2b⟩ := h2
  obtain ⟨h3a, h3b⟩ := h3
  obtain ⟨h4a, h4b⟩ := h4
  simp only at h1a h1b h2a h2b h3a h3b h4a h4b
  show buildSlots ⟨hsf, hsfp, hsrac, hsracp, r3, r3p, bl, blp, false, 0⟩ =
    ⟨specSlotAt ⟨hsf, hsfp, hsrac, hsracp, r3, r3p, bl, blp, false, 0⟩ 1,
      specSlotAt ⟨hsf, hsfp, hsrac, hsracp, r3, r3p, bl, blp, false, 0⟩ 2,
      specSlotAt ⟨hsf, hsfp, hsrac, hsracp, r3, r3p, bl, blp, false, 0⟩ 3,
      specSlotAt ⟨hsf, hsfp, hsrac, hsracp, r3, r3p, bl, blp, false, 0⟩ 4⟩
  revert hsf hsrac r3 bl
  interval_cases hsfp <;> interval_cases hsracp <;> interval_cases r3p <;>
    interval_cases blp <;> decide

/-- C2 witness: the slot-table theorem applied to a configuration in
which all four algorithms are enabled and hybrid shares priority 1 with
edge-based, so the later writer in the fixed order wins slot 1. -/
theorem slot_table_matches_spec_witness :
    buildSlots ⟨true, 1, true, 1, true, 2, true, 3, false, 10⟩ =
      ⟨specSlotAt ⟨true, 1, true, 1, true, 2, true, 3, false, 10⟩ 1,
        specSlotAt ⟨true, 1, true, 1, true, 2, true, 3, false, 10⟩ 2,
        specSlotAt ⟨true, 1, true, 1, true, 2, true, 3, false, 10⟩ 3,
        specSlotAt ⟨true, 1, true, 1, true, 2, true, 3, false, 10⟩ 4⟩ :=
  slot_table_matches_spec ⟨true, 1, true, 1, true, 2, true, 3, false, 10⟩
    (by decide) (by decide) (by decide) (by decide)

/-- C3: every record emitted by the blob-based detector method BLOBM is
tagged InformationOrigin.HSRAC, never the blob-based tag
InformationOrigin.BLOB that the enum defines for it, regardless of the
detector result and the external collaborator results. -/
theorem blobm_emits_hsrac_origin :
    (∀ (out : Int × Int) (eyeopen : Bool) (cx : Int),
      (BLOBM_info out eyeopen cx).info_type = InformationOrigin.HSRAC) ∧
    InformationOrigin.HSRAC ≠ InformationOrigin.BLOB := by
  refine ⟨fun out eyeopen cx => ?_, by decide⟩
  unfold BLOBM_info
  split <;> rfl

/-- C5: a detector result with the sentinel coordinate (0, 0) is
forwarded exactly like any other sample; the emission for a sentinel
tick is a record carrying the calibrated position computed by cal_osc
from (0, 0) and the ordinary origin tag and blink value, and for each
of HSFM, RANSAC3DM and BLOBM the constructed record does not depend on
whether the raw x coordinate is the sentinel 0. -/
theorem sentinel_forwarded_as_gaze (env : TickEnv) (s : WorkerState) (g : Frame)
    (hout : env.blobOut = (0, 0, g))
    (hgray : s.current_image_gray = some g)
    (hrows : 0 < g.rows) (hcols : 0 < g.cols) :
    (methodStep env s Algo.BLOBM).2 =
      [(⟨g.rows, g.cols + g.cols, g.tag⟩,
        ⟨InformationOrigin.HSRAC, (env.cal (0, 0)).1, (env.cal (0, 0)).2, 0,
          env.intense 0 0 (some g)⟩)] ∧
    (∀ (out : Int × Int) (eyeopen : Bool) (cx : Int),
      BLOBM_info out eyeopen cx = BLOBM_info out eyeopen 0) ∧
    (∀ (out : Int × Int) (eyeopen : Bool) (cx : Int),
      HSFM_info out eyeopen cx = HSFM_info out eyeopen 0) ∧
    (∀ (out : Int × Int) (eyeopen : Bool) (cx : Int),
      RANSAC3DM_info out eyeopen cx = RANSAC3DM_info out eyeopen 0) := by
  refine ⟨?_, ?_, ?_, ?_⟩
  · simp [methodStep, output_images_and_update, BLOBM_info, hout, hgray, hrows, hcols]
  · intro out eyeopen cx
    unfold BLOBM_info
    split <;> rfl
  · intro out eyeopen cx
    unfold HSFM_info
    split <;> rfl
  · intro out eyeopen cx
    unfold RANSAC3DM_info
    split <;> rfl

/-- Concrete tick inputs used to witness the sentinel emission: the blob
detector reports the sentinel (0, 0) with a 4 by 4 diagnostic frame. -/
def sentinelEnv : TickEnv :=
  { cancelled := false
    cancelledDuringWait := false
    cfg := ⟨0, 0, 4, 4, 0, 30⟩
    frame := none
    hsfOut := (0, 0, ⟨4, 4, 7⟩)
    hsracOut := (0, 0, ⟨4, 4, 7⟩, ⟨4, 4, 7⟩, ⟨4, 4, 7⟩)
    ransacOut := (0, 0, ⟨4, 4, 7⟩)
    blobOut := (0, 0, ⟨4, 4, 7⟩)
    intense := fun _ _ _ => true
    cal := fun p => (p.1 + 5, p.2 + 6)
    blinkResult := false }

/-- Concrete worker state used to witness the sentinel emission. -/
def sentinelState : WorkerState :=
  { initState 0 with current_image_gray := some ⟨4, 4, 7⟩ }

/-- C5 witness: the sentinel theorem applied at the concrete tick, where
the record enqueued for the (0, 0) detector result carries the
calibrated position (5, 6) computed by cal_osc from the sentinel. -/
theorem sentinel_forwarded_as_gaze_witness :
    (methodStep sentinelEnv sentinelState Algo.BLOBM).2 =
      [((⟨4, 4 + 4, 7⟩ : Frame),
        (⟨InformationOrigin.HSRAC, (sentinelEnv.cal (0, 0)).1, (sentinelEnv.cal (0, 0)).2, 0,
          sentinelEnv.intense 0 0 (some ⟨4, 4, 7⟩)⟩ : EyeInformation))] ∧
    (∀ (out : Int × Int) (eyeopen : Bool) (cx : Int),
      BLOBM_info out eyeopen cx = BLOBM_info out eyeopen 0) ∧
    (∀ (out : Int × Int) (eyeopen : Bool) (cx : Int),
      HSFM_info out eyeopen cx = HSFM_info out eyeopen 0) ∧
    (∀ (out : Int × Int) (eyeopen : Bool) (cx : Int),
      RANSAC3DM_info out eyeopen cx = RANSAC3DM_info out eyeopen 0) :=
  sentinel_forwarded_as_gaze sentinelEnv sentinelState ⟨4, 4, 7⟩ rfl rfl
    (by decide) (by decide)

/-- The pye3d reset step never touches the scheduling slots or the
stateful HSF and HSRAC engine handles. -/
theorem resetModels_fixed (cfg : Config) (s : WorkerState) :
    (resetModels cfg s).slots = s.slots ∧ (resetModels cfg s).er_hsf = s.er_hsf ∧
    (resetModels cfg s).er_hsrac = s.er_hsrac := by
  unfold resetModels
  split <;> exact ⟨rfl, rfl, rfl⟩

/-- The output sink never touches the scheduling slots or the engine
handles. -/
theorem output_images_and_update_fixed (cfg : Config) (s : WorkerState) (t : Frame)
    (i : EyeInformation) :
    ((output_images_and_update cfg s t i).1).slots = s.slots ∧
    ((output_images_and_update cfg s t i).1).er_hsf = s.er_hsf ∧
    ((output_images_and_update cfg s t i).1).er_hsrac = s.er_hsrac := by
  unfold output_images_and_update
  rcases hg : s.current_image_gray with _ | g
  · exact ⟨rfl, rfl, rfl⟩
  · simp only
    split <;> exact ⟨rfl, rfl, rfl⟩

/-- A single bound-method invocation never touches the scheduling slots
or the engine handles. -/
theorem methodStep_fixed (env : TickEnv) (s : WorkerState) (a : Algo) :
    ((methodStep env s a).1).slots = s.slots ∧
    ((methodStep env s a).1).er_hsf = s.er_hsf ∧
    ((methodStep env s a).1).er_hsrac = s.er_hsrac := by
  cases a <;> exact output_images_and_update_fixed ..

/-- Running a cascade of invocations never touches the scheduling slots
or the engine handles. -/
theorem runCalls_fixed (env : TickEnv) : ∀ (l : List Algo) (s : WorkerState),
    ((runCalls env s l).1).slots = s.slots ∧
    ((runCalls env s l).1).er_hsf = s.er_hsf ∧
    ((runCalls env s l).1).er_hsrac = s.er_hsrac
  | [], _ => ⟨rfl, rfl, rfl⟩
  | a :: rest, s => by
    have h1 := methodStep_fixed env s a
    have h2 := runCalls_fixed env rest (methodStep env s a).1
    simp only [runCalls]
    exact ⟨h2.1.trans h1.1, h2.2.1.trans h1.2.1, h2.2.2.trans h1.2.2⟩

/-- No continuing iteration of the processing loop reassigns the slot
table or the stateful engine handles. -/
theorem loopStep_fixed (env : TickEnv) (s s' : WorkerState) (calls : List Algo)
    (out : List (Frame × EyeInformation))
    (h : loopStep env s = StepResult.next s' calls out) :
    s'.slots = s.slots ∧ s'.er_hsf = s.er_hsf ∧ s'.er_hsrac = s.er_hsrac := by
  unfold loopStep at h
  dsimp only at h
  split at h
  · simp at h
  · split at h
    · split at h
      · simp at h
      · obtain ⟨h1, -, -⟩ := StepResult.next.inj h
        subst h1
        exact ⟨rfl, rfl, rfl⟩
    · split at h
      · obtain ⟨h1, -, -⟩ := StepResult.next.inj h
        subst h1
        exact resetModels_fixed env.cfg s
      · split at h
        · obtain ⟨h1, -, -⟩ := StepResult.next.inj h
          subst h1
          refine ⟨?_, ?_, ?_⟩
          · exact ((runCalls_fixed env _ _).1).trans (resetModels_fixed env.cfg s).1
          · exact ((runCalls_fixed env _ _).2.1).trans (resetModels_fixed env.cfg s).2.1
          · exact ((runCalls_fixed env _ _).2.2).trans (resetModels_fixed env.cfg s).2.2
        · obtain ⟨h1, -, -⟩ := StepResult.next.inj h
          subst h1
          exact resetModels_fixed env.cfg s

/-- C10: the slot table and the engine handles er_hsf and er_hsrac are
assigned only in the setup phase of run(); no continuing loop iteration
reassigns them, whatever the per-tick inputs are, so the algorithms
eligible to run and their priority order are those computed at setup.
The loop-step function does not even read the settings object, so
concurrent changes to enable flags or priorities cannot be observed by
the loop. -/
theorem loop_preserves_slots_and_engines (env : TickEnv) (s s' : WorkerState)
    (calls : List Algo) (out : List (Frame × EyeInformation))
    (h : loopStep env s = StepResult.next s' calls out) :
    s'.slots = s.slots ∧ s'.er_hsf = s.er_hsf ∧ s'.er_hsrac = s.er_hsrac :=
  loopStep_fixed env s s' calls out h

/-- Concrete quiet tick used by witnesses: ROI is valid, no frame is
available this tick, nothing is cancelled. -/
def quietEnv : TickEnv :=
  { cancelled := false
    cancelledDuringWait := false
    cfg := ⟨0, 0, 4, 4, 0, 30⟩
    frame := none
    hsfOut := (0, 0, ⟨4, 4, 0⟩)
    hsracOut := (0, 0, ⟨4, 4, 0⟩, ⟨4, 4, 0⟩, ⟨4, 4, 0⟩)
    ransacOut := (0, 0, ⟨4, 4, 0⟩)
    blobOut := (0, 0, ⟨4, 4, 0⟩)
    intense := fun _ _ _ => false
    cal := fun p => p
    blinkResult := false }

/-- C10 witness: the preservation theorem applied to the quiet tick from
the initial state, whose step result is computed concretely. -/
theorem loop_preserves_slots_and_engines_witness :
    (resetModels quietEnv.cfg (initState 0)).slots = (initState 0).slots ∧
    (resetModels quietEnv.cfg (initState 0)).er_hsf = (initState 0).er_hsf ∧
    (resetModels quietEnv.cfg (initState 0)).er_hsrac = (initState 0).er_hsrac :=
  loop_preserves_slots_and_engines quietEnv (initState 0)
    (resetModels quietEnv.cfg (initState 0)) [] [] (by decide)

/-- C4: on a tick whose active resolution differs from the one the pye3d
camera model was built at (the condition that the spec says must also
rebuild the stateful detector engines), the continuing loop iteration
leaves er_hsf and er_hsrac exactly as they were: the loop never
reconstructs them, so engine-internal state survives a resolution
change.  The todo comments at eye_processor.py lines 245 and 268 record
the missing reinitialisation. -/
theorem engines_reused_across_resolution_change (env : TickEnv) (s s' : WorkerState)
    (calls : List Algo) (out : List (Frame × EyeInformation))
    (_hres : s.camera_model.map CameraModel.resolution ≠
      some (env.cfg.roi_window_w, env.cfg.roi_window_h))
    (h : loopStep env s = StepResult.next s' calls out) :
    s'.er_hsf = s.er_hsf ∧ s'.er_hsrac = s.er_hsrac :=
  ⟨(loopStep_fixed env s s' calls out h).2.1, (loopStep_fixed env s s' calls out h).2.2⟩

/-- Worker state holding a constructed HSF engine, used to witness that
a resolution change reuses it. -/
def hsfBuiltState : WorkerState :=
  { initState 0 with
    er_hsf := some ⟨false, 10⟩
    camera_model := some ⟨30, (8, 8)⟩
    detector_3d := some ⟨⟨30, (8, 8)⟩⟩ }

/-- C4 witness: the reuse theorem applied to a concrete tick whose ROI
resolution (4, 4) differs from the resolution (8, 8) the camera model
and the live HSF engine were built at. -/
theorem engines_reused_across_resolution_change_witness :
    (resetModels quietEnv.cfg hsfBuiltState).er_hsf = hsfBuiltState.er_hsf ∧
    (resetModels quietEnv.cfg hsfBuiltState).er_hsrac = hsfBuiltState.er_hsrac :=
  engines_reused_across_resolution_change quietEnv hsfBuiltState
    (resetModels quietEnv.cfg hsfBuiltState) [] [] (by decide) (by decide)

/-- The pye3d reset step never touches the previously accepted frame. -/
theorem resetModels_previous (cfg : Config) (s : WorkerState) :
    (resetModels cfg s).previous_image = s.previous_image := by
  unfold resetModels
  split <;> rfl

/-- C6: when cropping fails because the current frame is unavailable,
the previously accepted frame is rotated and used instead; when there
is no previous frame either, preprocessing reports failure, and the
loop iteration then invokes no detector, emits nothing, and continues
to the next frame. -/
theorem preprocess_fallback_and_skip :
    (∀ (cfg : Config) (p : Frame), 0 < p.rows → 0 < p.cols →
      capture_crop_rotate_image cfg (some p) none = (some (warpAffineFrame p), true)) ∧
    (∀ cfg : Config, capture_crop_rotate_image cfg none none = (none, false)) ∧
    (∀ (env : TickEnv) (s : WorkerState) (fr : Frame),
      env.cancelled = false →
      0 < env.cfg.roi_window_w → 0 < env.cfg.roi_window_h →
      env.frame = some fr →
      (capture_crop_rotate_image env.cfg s.previous_image (some fr)).2 = false →
      loopStep env s = StepResult.next
        { resetModels env.cfg s with
          current_image := (capture_crop_rotate_image env.cfg s.previous_image (some fr)).1 }
        [] []) := by
  refine ⟨?_, ?_, ?_⟩
  · intro cfg p hr hc
    simp [capture_crop_rotate_image, hr, hc]
  · intro cfg
    rfl
  · intro env s fr hc hw hh hfr hfail
    have h1 : ¬(env.cancelled = true) := by simp [hc]
    have h2 : ¬(env.cfg.roi_window_w ≤ 0 ∨ env.cfg.roi_window_h ≤ 0) := by omega
    unfold loopStep
    rw [if_neg h1, if_neg h2, hfr]
    dsimp only
    rw [resetModels_previous env.cfg s]
    rw [if_neg (by simp [hfail])]

/-- Concrete tick used as a witness for a total preprocessing failure:
the delivered frame is empty, so its crop is empty and rotation fails. -/
def failEnv : TickEnv :=
  { quietEnv with frame := some ⟨0, 0, 1⟩ }

/-- C6 witness: the fallback theorem applied to a 5 by 5 previous frame,
to the no-previous-frame case, and to a concrete tick whose delivered
frame fails preprocessing. -/
theorem preprocess_fallback_and_skip_witness :
    capture_crop_rotate_image ⟨0, 0, 4, 4, 0, 30⟩ (some ⟨5, 5, 3⟩) none =
      (some (warpAffineFrame ⟨5, 5, 3⟩), true) ∧
    capture_crop_rotate_image ⟨0, 0, 4, 4, 0, 30⟩ none none = (none, false) ∧
    loopStep failEnv (initState 0) = StepResult.next
      { resetModels failEnv.cfg (initState 0) with
        current_image :=
          (capture_crop_rotate_image failEnv.cfg (initState 0).previous_image (some ⟨0, 0, 1⟩)).1 }
      [] [] :=
  ⟨preprocess_fallback_and_skip.1 ⟨0, 0, 4, 4, 0, 30⟩ ⟨5, 5, 3⟩ (by decide) (by decide),
    preprocess_fallback_and_skip.2.1 ⟨0, 0, 4, 4, 0, 30⟩,
    preprocess_fallback_and_skip.2.2 failEnv (initState 0) ⟨0, 0, 1⟩ rfl (by decide) (by decide)
      rfl (by decide)⟩

/-- C7 amended: an output tick is dropped, with the state left entirely
unchanged, when the grayscale and diagnostic frames have different
heights; when both frames are nonempty and share their height the pair
is enqueued and previous_image and previous_rotation are updated, so
the last-accepted frame and rotation advance exactly when the
concatenate-and-publish succeeds.  A width mismatch alone does not
prevent concatenation along axis 1. -/
theorem output_drop_and_update (cfg : Config) (s : WorkerState) (t : Frame)
    (i : EyeInformation) :
    (∀ g : Frame, s.current_image_gray = some g → g.rows ≠ t.rows →
      output_images_and_update cfg s t i = (s, [])) ∧
    (∀ g : Frame, s.current_image_gray = some g → 0 < g.rows → 0 < g.cols → 0 < t.cols →
      g.rows = t.rows →
      output_images_and_update cfg s t i =
        ({ s with previous_image := s.current_image, previous_rotation := cfg.rotation_angle },
          [(⟨g.rows, g.cols + t.cols, g.tag⟩, i)])) := by
  constructor
  · intro g hg hne
    simp only [output_images_and_update, hg]
    rw [if_neg (fun hcon => hne hcon.2.2.2.2)]
  · intro g hg h1 h2 h4 heq
    simp only [output_images_and_update, hg]
    rw [if_pos ⟨h1, h2, heq ▸ h1, h4, heq⟩]

/-- Worker state whose grayscale frame is 100 pixels tall and 50 wide,
used for the output-sink theorems. -/
def mismatchState : WorkerState :=
  { initState 0 with
    current_image := some ⟨100, 50, 2⟩
    current_image_gray := some ⟨100, 50, 2⟩ }

/-- C7 counterexample: a diagnostic frame of 80 columns against a
grayscale frame of 50 columns has mismatched dimensions, yet the tick
is not dropped: the concatenation succeeds along axis 1 and the record
is enqueued, with the fallback state updated. -/
theorem output_width_mismatch_not_dropped :
    (⟨100, 50, 2⟩ : Frame).cols ≠ (⟨100, 80, 3⟩ : Frame).cols ∧
    output_images_and_update ⟨0, 0, 4, 4, 7, 30⟩ mismatchState ⟨100, 80, 3⟩
        ⟨InformationOrigin.HSF, 0, 0, 0, false⟩ =
      ({ mismatchState with
          previous_image := mismatchState.current_image, previous_rotation := 7 },
        [(⟨100, 130, 2⟩, ⟨InformationOrigin.HSF, 0, 0, 0, false⟩)]) := by
  decide

/-- C7 witness: the amended output-sink theorem applied to a height
mismatch, which drops the tick unchanged, and to a matching height,
which enqueues and updates. -/
theorem output_drop_and_update_witness :
    output_images_and_update ⟨0, 0, 4, 4, 7, 30⟩ mismatchState ⟨99, 50, 3⟩
        ⟨InformationOrigin.HSF, 0, 0, 0, false⟩ = (mismatchState, []) ∧
    output_images_and_update ⟨0, 0, 4, 4, 7, 30⟩ mismatchState ⟨100, 80, 3⟩
        ⟨InformationOrigin.HSF, 0, 0, 0, false⟩ =
      ({ mismatchState with
          previous_image := mismatchState.current_image, previous_rotation := 7 },
        [(⟨100, 130, 2⟩, ⟨InformationOrigin.HSF, 0, 0, 0, false⟩)]) :=
  ⟨(output_drop_and_update ⟨0, 0, 4, 4, 7, 30⟩ mismatchState ⟨99, 50, 3⟩
      ⟨InformationOrigin.HSF, 0, 0, 0, false⟩).1 ⟨100, 50, 2⟩ rfl (by decide),
    (output_drop_and_update ⟨0, 0, 4, 4, 7, 30⟩ mismatchState ⟨100, 80, 3⟩
      ⟨InformationOrigin.HSF, 0, 0, 0, false⟩).2 ⟨100, 50, 2⟩ rfl (by decide) (by decide)
      (by decide) (by decide)⟩

/-- Length of an in-bounds python slice. -/
theorem sliceLen_in_bounds (a b : Int) (len : Nat) (h0 : 0 ≤ a) (hab : a ≤ b)
    (hb : b ≤ (len : Int)) : sliceLen a b len = (b - a).toNat := by
  unfold sliceLen
  dsimp only
  rw [if_neg (by omega), if_neg (by omega), min_eq_left hb, min_eq_left (hab.trans hb)]

/-- C8 amended: for every ROI rectangle with positive width and height
that lies fully inside the source frame, and for every rotation angle,
the preprocessor output has exactly h rows and w columns.  When the ROI
reaches outside the frame the numpy slice clamps instead of failing, so
the output is smaller than the ROI; see the counterexample. -/
theorem preprocessor_roi_dims (cfg : Config) (f : Frame) (prev : Option Frame)
    (hw : 0 < cfg.roi_window_w) (hh : 0 < cfg.roi_window_h)
    (hx : 0 ≤ cfg.roi_window_x) (hy : 0 ≤ cfg.roi_window_y)
    (hxw : cfg.roi_window_x + cfg.roi_window_w ≤ (f.cols : Int))
    (hyh : cfg.roi_window_y + cfg.roi_window_h ≤ (f.rows : Int)) :
    capture_crop_rotate_image cfg prev (some f) =
      (some ⟨cfg.roi_window_h.toNat, cfg.roi_window_w.toNat, f.tag⟩, true) := by
  have hr : sliceLen cfg.roi_window_y (cfg.roi_window_y + cfg.roi_window_h) f.rows =
      cfg.roi_window_h.toNat := by
    rw [sliceLen_in_bounds _ _ _ hy (by omega) hyh]
    omega
  have hcl : sliceLen cfg.roi_window_x (cfg.roi_window_x + cfg.roi_window_w) f.cols =
      cfg.roi_window_w.toNat := by
    rw [sliceLen_in_bounds _ _ _ hx (by omega) hxw]
    omega
  unfold capture_crop_rotate_image cropFrame
  dsimp only
  rw [hr, hcl]
  rw [if_pos ⟨by omega, by omega⟩]
  rfl

/-- C8 counterexample: a valid 100 by 100 ROI applied to a 50 by 50
source frame: the clamped crop and the rotation produce a 50 by 50
output, not the 100 by 100 dimensions of the ROI rectangle. -/
theorem preprocessor_dims_clamped :
    capture_crop_rotate_image ⟨0, 0, 100, 100, 0, 30⟩ none (some ⟨50, 50, 9⟩) =
      (some ⟨50, 50, 9⟩, true) ∧ (50 : Nat) ≠ 100 := by
  decide

/-- C8 witness: the amended dimension theorem applied to an in-bounds
ROI of width 10 and height 20 at offset (1, 2) under a 45 degree
rotation. -/
theorem preprocessor_roi_dims_witness :
    capture_crop_rotate_image ⟨1, 2, 10, 20, 45, 30⟩ none (some ⟨100, 100, 4⟩) =
      (some ⟨(20 : Int).toNat, (10 : Int).toNat, 4⟩, true) :=
  preprocessor_roi_dims ⟨1, 2, 10, 20, 45, 30⟩ ⟨100, 100, 4⟩ none (by decide) (by decide)
    (by decide) (by decide) (by decide) (by decide)

/-- C9 amended: while the configured ROI width or height is not
positive, each loop iteration either exits as soon as the cancellation
signal is observed during the bounded wait, or leaves the worker state
completely unchanged: no pye3d camera or detector is constructed and no
detector is invoked in the loop.  The HSF and HSRAC engine handles,
however, are constructed by the setup phase of run() before the first
ROI check whenever their flags are enabled; see the counterexample. -/
theorem invalid_roi_idle_loop (env : TickEnv) (s : WorkerState)
    (hc : env.cancelled = false)
    (hroi : env.cfg.roi_window_w ≤ 0 ∨ env.cfg.roi_window_h ≤ 0) :
    (env.cancelledDuringWait = true → loopStep env s = StepResult.exit) ∧
    (env.cancelledDuringWait = false → loopStep env s = StepResult.next s [] []) := by
  constructor <;> intro hwv <;> unfold loopStep <;>
    rw [if_neg (by simp [hc]), if_pos hroi] <;> simp [hwv]

/-- Settings enabling only the edge-based HSF algorithm at priority 1. -/
def hsfOnlySettings : Settings :=
  ⟨true, 1, false, 2, false, 3, false, 4, false, 10⟩

/-- Tick inputs whose ROI is the invalid 0 by 0 rectangle. -/
def invalidRoiEnv : TickEnv :=
  { quietEnv with cfg := ⟨0, 0, 0, 0, 0, 30⟩ }

/-- C9 counterexample: with the HSF algorithm enabled, the setup phase
of run() constructs the er_hsf detector engine before the loop ever
checks the ROI, so the engine exists while the worker sits in the
invalid-ROI sleep loop; the subsequent idle iteration keeps it. -/
theorem setup_constructs_engine_without_roi :
    ((runSetup hsfOnlySettings (initState 0)).er_hsf).isSome = true ∧
    ((initState 0).er_hsf).isSome = false ∧
    loopStep invalidRoiEnv (runSetup hsfOnlySettings (initState 0)) =
      StepResult.next (runSetup hsfOnlySettings (initState 0)) [] [] := by
  decide

/-- C9 witness: the idle-loop theorem applied to the concrete
invalid-ROI tick, whose iteration leaves the initial state unchanged. -/
theorem invalid_roi_idle_loop_witness :
    loopStep invalidRoiEnv (initState 0) = StepResult.next (initState 0) [] [] :=
  (invalid_roi_idle_loop invalidRoiEnv (initState 0) rfl (by decide)).2 rfl
